import Mathlib

/-!
Verification of the flight-search request builder of `serpapi_flights_server.py`
(the Flight Query Builder of the specification).

The Python module is shallowly embedded: JSON values become the inductive
`JVal`, Python dictionaries become association lists, Python truthiness
becomes `JVal.truthy`, machine-independent Python integers become `Int`,
and each fallible Python function becomes a Lean function into `Except`.
The network call performed at the very end of `search_flights` is outside
the specified scope (the spec treats transport as a black box), so the
embedded `search_flights` returns the assembled outbound parameter set —
exactly the value the Python code hands to the HTTP client.

`json.loads` is embedded as `jsonParse`, a fuel-driven recursive-descent
parser covering the JSON subset relevant here: null, booleans, integer
numbers, strings (with the standard escapes), arrays and objects.  Python
decode-error messages carry position information that the embedding
abstracts into the single constructor `McError.badJson`.
-/

/-- A JSON value, as produced by `json.loads` in the source. -/
inductive JVal where
  | null
  | bool (b : Bool)
  | num (n : Int)
  | str (s : String)
  | arr (xs : List JVal)
  | obj (fs : List (String × JVal))

/-- Python truthiness (`bool(v)`) on JSON values: `None`, `False`, `0`,
`""`, `[]` and `{}` are falsy, everything else is truthy. -/
def JVal.truthy : JVal → Bool
  | .null => false
  | .bool b => b
  | .num n => n != 0
  | .str s => !s.isEmpty
  | .arr xs => !xs.isEmpty
  | .obj fs => !fs.isEmpty

/-- First-match lookup in an object's field list (fields are unique after
parsing, matching Python `dict` semantics). -/
def lookupFs : List (String × JVal) → String → Option JVal
  | [], _ => none
  | (k', v) :: rest, k => if k' = k then some v else lookupFs rest k

/-- `seg.get(k)`: `None` when the receiver is not a dict or lacks the key. -/
def JVal.getKey : JVal → String → Option JVal
  | .obj fs, k => lookupFs fs k
  | _, _ => none

/-- `d[k] = v` on a field list: replace in place when the key exists
(Python dicts keep the original position), append otherwise. -/
def setFs : List (String × JVal) → String → JVal → List (String × JVal)
  | [], k, v => [(k, v)]
  | (k', v') :: rest, k, v =>
      if k' = k then (k', v) :: rest else (k', v') :: setFs rest k v

/-- `seg[k] = v`: only meaningful on dicts; other values are unchanged
(the source only ever assigns into values checked to be dicts). -/
def JVal.setKey : JVal → String → JVal → JVal
  | .obj fs, k, v => .obj (setFs fs k v)
  | j, _, _ => j

/-- `isinstance(seg, dict)`. -/
def JVal.isObj : JVal → Bool
  | .obj _ => true
  | _ => false

/-- Truthiness of `seg.get(k)`; `¬ truthyOpt (seg.getKey k)` is exactly the
source's `"k" not in seg or not seg.get("k")` (a missing key yields `None`,
which is falsy). -/
def truthyOpt : Option JVal → Bool
  | none => false
  | some v => v.truthy

/-! ### The JSON parser embedding `json.loads` -/

def isWsChar (c : Char) : Bool :=
  c = ' ' || c = '\t' || c = '\n' || c = '\r'

def skipWs : List Char → List Char
  | [] => []
  | c :: cs => if isWsChar c then skipWs cs else c :: cs

def hexVal (c : Char) : Option Nat :=
  if c.isDigit then some (c.toNat - 48)
  else if 'a' ≤ c ∧ c ≤ 'f' then some (c.toNat - 87)
  else if 'A' ≤ c ∧ c ≤ 'F' then some (c.toNat - 55)
  else none

/-- Parse the body of a JSON string literal (the opening quote already
consumed); returns the decoded characters and the input after the closing
quote. -/
def parseStrChars : Nat → List Char → Option (List Char × List Char)
  | 0, _ => none
  | _ + 1, [] => none
  | fuel + 1, c :: cs =>
    if c = '"' then some ([], cs)
    else if c = '\\' then
      match cs with
      | [] => none
      | e :: cs' =>
        let esc : Option (Char × List Char) :=
          if e = '"' then some ('"', cs')
          else if e = '\\' then some ('\\', cs')
          else if e = '/' then some ('/', cs')
          else if e = 'n' then some ('\n', cs')
          else if e = 't' then some ('\t', cs')
          else if e = 'r' then some ('\r', cs')
          else if e = 'b' then some (Char.ofNat 8, cs')
          else if e = 'f' then some (Char.ofNat 12, cs')
          else if e = 'u' then
            match cs' with
            | a :: b :: c2 :: d :: cs'' =>
              match hexVal a, hexVal b, hexVal c2, hexVal d with
              | some ha, some hb, some hc, some hd =>
                  some (Char.ofNat (((ha * 16 + hb) * 16 + hc) * 16 + hd), cs'')
              | _, _, _, _ => none
            | _ => none
          else none
        match esc with
        | none => none
        | some (ch, rest) =>
          match parseStrChars fuel rest with
          | none => none
          | some (l, r) => some (ch :: l, r)
    else
      match parseStrChars fuel cs with
      | none => none
      | some (l, r) => some (c :: l, r)

def takeDigits : List Char → List Char × List Char
  | [] => ([], [])
  | c :: cs =>
    if c.isDigit then
      let (d, r) := takeDigits cs
      (c :: d, r)
    else ([], c :: cs)

def digitsToNat (ds : List Char) : Nat :=
  ds.foldl (fun a c => a * 10 + (c.toNat - 48)) 0

/-- Match an expected literal tail (for `null`, `true`, `false`). -/
def expectChars : List Char → List Char → Option (List Char)
  | [], cs => some cs
  | _, [] => none
  | e :: es, c :: cs => if c = e then expectChars es cs else none

/-- Parse an integer JSON number starting at `cs` (first char a digit or a
minus sign); floats (`.`/`e`/`E` after the digits) are outside the modeled
subset and fail. -/
def parseNum (cs : List Char) : Option (JVal × List Char) :=
  let (neg, cs') :=
    match cs with
    | '-' :: rest => (true, rest)
    | _ => (false, cs)
  let (ds, r) := takeDigits cs'
  if ds.isEmpty then none
  else
    match r with
    | d :: _ =>
      if d = '.' || d = 'e' || d = 'E' then none
      else some (.num (if neg then -(digitsToNat ds : Int) else (digitsToNat ds : Int)), r)
    | [] => some (.num (if neg then -(digitsToNat ds : Int) else (digitsToNat ds : Int)), [])

/-- Parser state: a value, the tail of an array (an item was just parsed),
a key/value pair of an object, or the tail of an object. -/
inductive PReq where
  | value (cs : List Char)
  | arrTail (acc : List JVal) (cs : List Char)
  | objPair (acc : List (String × JVal)) (cs : List Char)
  | objTail (acc : List (String × JVal)) (cs : List Char)

/-- The recursive-descent core of `jsonParse`; fuel-driven so that it is
structurally recursive (every recursive call consumes input). -/
def parseF : Nat → PReq → Option (JVal × List Char)
  | 0, _ => none
  | fuel + 1, .value cs =>
    match skipWs cs with
    | [] => none
    | c :: rest =>
      if c = 'n' then (expectChars ['u', 'l', 'l'] rest).map (fun r => (.null, r))
      else if c = 't' then (expectChars ['r', 'u', 'e'] rest).map (fun r => (.bool true, r))
      else if c = 'f' then (expectChars ['a', 'l', 's', 'e'] rest).map (fun r => (.bool false, r))
      else if c = '"' then
        match parseStrChars (rest.length + 1) rest with
        | none => none
        | some (l, r) => some (.str (String.mk l), r)
      else if c = '[' then
        match skipWs rest with
        | ']' :: r2 => some (.arr [], r2)
        | _ =>
          match parseF fuel (.value rest) with
          | none => none
          | some (v, r1) => parseF fuel (.arrTail [v] r1)
      else if c = '{' then
        match skipWs rest with
        | '}' :: r2 => some (.obj [], r2)
        | _ => parseF fuel (.objPair [] rest)
      else if c = '-' || c.isDigit then parseNum (c :: rest)
      else none
  | fuel + 1, .arrTail acc cs =>
    match skipWs cs with
    | ',' :: r =>
      match parseF fuel (.value r) with
      | none => none
      | some (v, r1) => parseF fuel (.arrTail (acc ++ [v]) r1)
    | ']' :: r => some (.arr acc, r)
    | _ => none
  | fuel + 1, .objPair acc cs =>
    match skipWs cs with
    | '"' :: r =>
      match parseStrChars (r.length + 1) r with
      | none => none
      | some (kl, r1) =>
        match skipWs r1 with
        | ':' :: r2 =>
          match parseF fuel (.value r2) with
          | none => none
          | some (v, r3) => parseF fuel (.objTail (setFs acc (String.mk kl) v) r3)
        | _ => none
    | _ => none
  | fuel + 1, .objTail acc cs =>
    match skipWs cs with
    | ',' :: r => parseF fuel (.objPair acc r)
    | '}' :: r => some (.obj acc, r)
    | _ => none

/-- `json.loads`: parse one value and require only whitespace after it. -/
def jsonParse (s : String) : Option JVal :=
  match parseF (s.length + 2) (.value s.data) with
  | none => none
  | some (v, rest) => if (skipWs rest).isEmpty then some v else none

/-! ### Multi-city segment validation -/

/-- The `ValueError`s that `_validate_multicity_segments` can raise, one
constructor per `raise` site; `message` renders the source's text.  Numbers
are 1-indexed segment numbers, exactly as interpolated in the source. -/
inductive McError where
  | badJson
  | notArray
  | notObject (n : Nat)
  | missingDepartureFirst
  | cannotInfer (n : Nat)
  | missingArrival (n : Nat)
  | missingDate (n : Nat)
deriving DecidableEq

/-- The message text of each `ValueError` raised by
`_validate_multicity_segments` (decode errors abstract the embedded
exception text). -/
def McError.message : McError → String
  | .badJson => "`multi_city_json` must be a valid JSON string: <decode error>"
  | .notArray => "`multi_city_json` must be a JSON array of flight segments."
  | .notObject n => s!"Segment #{n} in `multi_city_json` must be an object."
  | .missingDepartureFirst => "Missing `departure_id` in first segment of `multi_city_json`."
  | .cannotInfer n => s!"Cannot infer `departure_id` for segment #{n}; previous segment has no `arrival_id`."
  | .missingArrival n => s!"Missing `arrival_id` in `multi_city_json` parameter (flight #{n})."
  | .missingDate n => s!"Missing `date` in `multi_city_json` parameter (flight #{n})."

/-- `segments[i-1].get("arrival_id")` as read in the source's inference
branch; `prev` is the previously processed segment (`none` only for `i = 0`,
where the source never reads it). -/
def prevArrival : Option JVal → Option JVal
  | some p => p.getKey "arrival_id"
  | none => none

/-- The body of the `for i, seg in enumerate(segments)` loop for one
segment: the dict check, the departure inference, and the arrival and date
checks, in source order. -/
def checkSegment (i : Nat) (prev : Option JVal) (seg : JVal) : Except McError JVal :=
  if seg.isObj = false then .error (.notObject (i + 1))
  else
    let step1 : Except McError JVal :=
      if truthyOpt (seg.getKey "departure_id") = false then
        if i = 0 then .error .missingDepartureFirst
        else
          let pa := prevArrival prev
          if truthyOpt pa = false then .error (.cannotInfer (i + 1))
          else .ok (seg.setKey "departure_id" (pa.getD JVal.null))
      else .ok seg
    match step1 with
    | .error e => .error e
    | .ok seg1 =>
      if truthyOpt (seg1.getKey "arrival_id") = false then .error (.missingArrival (i + 1))
      else if truthyOpt (seg1.getKey "date") = false then .error (.missingDate (i + 1))
      else .ok seg1

/-- The segment loop from position `i`; `prev` is the segment processed at
position `i - 1` (already enriched in place, as in the source, where the
list is mutated while being traversed). -/
def validateSegsFrom (i : Nat) (prev : Option JVal) : List JVal → Except McError (List JVal)
  | [] => .ok []
  | seg :: rest =>
    match checkSegment i prev seg with
    | .error e => .error e
    | .ok seg1 =>
      match validateSegsFrom (i + 1) (some seg1) rest with
      | .error e => .error e
      | .ok rest1 => .ok (seg1 :: rest1)

/-- The whole segment loop of `_validate_multicity_segments`, applied to an
already-parsed segment list. -/
def validateSegments (segs : List JVal) : Except McError (List JVal) :=
  validateSegsFrom 0 none segs

/-- `_validate_multicity_segments`: parse the JSON string, require an
array, then run the segment loop. -/
def _validate_multicity_segments (s : String) : Except McError (List JVal) :=
  match jsonParse s with
  | none => .error .badJson
  | some j =>
    match j with
    | .arr segs => validateSegments segs
    | _ => .error .notArray

/-! ### `_validate_max_price` -/

/-- A loosely-typed Python value as it can arrive in the `max_price` position:
`None`, an `int`, or a `str`. -/
inductive PyVal where
  | pynone
  | pyint (n : Int)
  | pystr (s : String)
deriving DecidableEq

def dropWsLeft : List Char → List Char
  | [] => []
  | c :: cs => if isWsChar c then dropWsLeft cs else c :: cs

/-- Python `int(s)` on a string: surrounding whitespace, an optional sign,
then a non-empty run of digits (the embedding omits underscore separators). -/
def pyIntOfString (s : String) : Option Int :=
  let cs := (dropWsLeft ((dropWsLeft s.data.reverse).reverse))
  let core : List Char → Option Int := fun ds =>
    if ds.isEmpty then none
    else if ds.all Char.isDigit then some (digitsToNat ds : Int)
    else none
  match cs with
  | '-' :: rest => (core rest).map (fun n => -n)
  | '+' :: rest => core rest
  | _ => core cs

/-- Python `int(v)` as used in `_validate_max_price`: `int` is identity,
`str` parses, `None` raises `TypeError` (mapped to `none`). -/
def pyToInt : PyVal → Option Int
  | .pynone => none
  | .pyint n => some n
  | .pystr s => pyIntOfString s

/-- The message of both `ValueError`s in `_validate_max_price`. -/
def maxPriceMsg : String := "`max_price` must be a positive integer if provided."

/-- `_validate_max_price`: `None` passes through; otherwise the value must
convert to a strictly positive integer. -/
def _validate_max_price (v : PyVal) : Except String (Option Int) :=
  match v with
  | .pynone => .ok none
  | _ =>
    match pyToInt v with
    | none => .error maxPriceMsg
    | some n => if n ≤ 0 then .error maxPriceMsg else .ok (some n)

/-! ### The outbound parameter set -/

/-- A scalar value of the outbound parameter set (`params` in the source):
a string or an integer. -/
inductive PValue where
  | str (s : String)
  | int (n : Int)
deriving DecidableEq

/-- The outbound parameter set: an association list with unique keys, in
insertion order, embedding the Python `params` dict. -/
abbrev Params := List (String × PValue)

/-- Dictionary lookup on the parameter set. -/
def getP : Params → String → Option PValue
  | [], _ => none
  | (k', v) :: rest, k => if k' = k then some v else getP rest k

/-- `_add_param`: add the pair only when the value is neither `None` nor
the empty string (an integer value never equals `""`). -/
def _add_param (ps : Params) (k : String) (v : Option PValue) : Params :=
  match v with
  | none => ps
  | some pv => if pv = PValue.str "" then ps else ps ++ [(k, pv)]

/-- `str(b).lower()` for a Python bool. -/
def pyBoolStr (b : Bool) : String := if b then "true" else "false"

/-- Truthiness of a default-`None` string parameter (`if not x`). -/
def pyTruthyS : Option String → Bool
  | none => false
  | some s => !s.isEmpty

/-- The full argument list of `search_flights`, with the source's defaults
materialized by `FlightRequest.base` below. -/
structure FlightRequest where
  origin : Option String
  destination : Option String
  departure_date : Option String
  return_date : Option String
  trip_type : String
  multi_city_json : Option String
  gl : Option String
  hl : Option String
  currency : String
  adults : Int
  children : Int
  infants_in_seat : Int
  infants_on_lap : Int
  travel_class : Int
  show_hidden : Bool
  deep_search : Bool
  sort_by : Int
  stops : Int
  exclude_airlines : Option String
  include_airlines : Option String
  bags : Int
  outbound_times : Option String
  return_times : Option String
  layover_duration : Option String
  exclude_conns : Option String
  departure_token : Option String
  booking_token : Option String
  no_cache : Bool
  async_req : Bool
  zero_trace : Bool
  output : String

/-- The default argument values of `search_flights`. -/
def FlightRequest.base : FlightRequest where
  origin := none
  destination := none
  departure_date := none
  return_date := none
  trip_type := "oneway"
  multi_city_json := none
  gl := none
  hl := none
  currency := "TWD"
  adults := 1
  children := 0
  infants_in_seat := 0
  infants_on_lap := 0
  travel_class := 1
  show_hidden := false
  deep_search := false
  sort_by := 1
  stops := 0
  exclude_airlines := none
  include_airlines := none
  bags := 0
  outbound_times := none
  return_times := none
  layover_duration := none
  exclude_conns := none
  departure_token := none
  booking_token := none
  no_cache := false
  async_req := false
  zero_trace := false
  output := "json"

/-- The errors `search_flights` raises before assembling parameters:
`EnvironmentError` for the missing credential (the spec's
`ConfigurationError`) and `ValueError` (the spec's `ValidationError`) for
each trip-specific check. -/
inductive VError where
  | returnDateRequired
  | multiCityRequired
  | multiCity (e : McError)
deriving DecidableEq

inductive SearchError where
  | configError
  | validation (e : VError)
deriving DecidableEq

/-- Message text of each error raised directly by `search_flights`. -/
def SearchError.message : SearchError → String
  | .configError => "Environment variable SERPAPI_API_KEY is not set. Please set it to access the SerpAPI."
  | .validation .returnDateRequired => "`return_date` is required if `trip_type` is 'roundtrip'."
  | .validation .multiCityRequired => "`multi_city_json` is required if `trip_type` is 'multicity'."
  | .validation (.multiCity e) => e.message

/-- The trip-type dispatch block of `search_flights`: validate the
trip-specific fields and produce the `type` parameter (1 roundtrip,
3 multicity, 2 oneway; any other `trip_type` falls through to oneway). -/
def tripDispatch (r : FlightRequest) : Except SearchError Int :=
  if r.trip_type = "roundtrip" then
    if pyTruthyS r.return_date = false then .error (.validation .returnDateRequired)
    else .ok 1
  else if r.trip_type = "multicity" then
    if pyTruthyS r.multi_city_json = false then .error (.validation .multiCityRequired)
    else
      match _validate_multicity_segments (r.multi_city_json.getD "") with
      | .error e => .error (.validation (.multiCity e))
      | .ok _ => .ok 3
  else .ok 2

/-- The `params` dict literal of the source, in source order. -/
def baseParams (key : String) (ty : Int) (r : FlightRequest) : Params :=
  [("engine", .str "google_flights"),
   ("api_key", .str key),
   ("type", .int ty),
   ("travel_class", .int r.travel_class),
   ("show_hidden", .str (pyBoolStr r.show_hidden)),
   ("deep_search", .str (pyBoolStr r.deep_search)),
   ("sort_by", .int r.sort_by),
   ("stops", .int r.stops),
   ("bags", .int r.bags),
   ("adults", .int r.adults),
   ("children", .int r.children),
   ("infants_in_seat", .int r.infants_in_seat),
   ("infants_on_lap", .int r.infants_on_lap),
   ("currency", .str r.currency),
   ("output", .str r.output),
   ("no_cache", .str (pyBoolStr r.no_cache)),
   ("async", .str (pyBoolStr r.async_req)),
   ("zero_trace", .str (pyBoolStr r.zero_trace))]

/-- The trip-gated `_add_param` calls of `search_flights`. -/
def gatedParams (ps : Params) (r : FlightRequest) : Params :=
  let ps1 :=
    if r.trip_type ≠ "multicity" then
      let a := _add_param ps "departure_id" (r.origin.map PValue.str)
      let b := _add_param a "arrival_id" (r.destination.map PValue.str)
      let c := _add_param b "outbound_date" (r.departure_date.map PValue.str)
      if pyTruthyS r.return_date = true ∧ r.trip_type = "roundtrip" then
        _add_param c "return_date" (r.return_date.map PValue.str)
      else c
    else ps
  if pyTruthyS r.multi_city_json = true ∧ r.trip_type = "multicity" then
    _add_param ps1 "multi_city_json" (r.multi_city_json.map PValue.str)
  else ps1

/-- The unconditional trailing `_add_param` calls of `search_flights`. -/
def tailParams (ps : Params) (r : FlightRequest) : Params :=
  let p1 := _add_param ps "gl" (r.gl.map PValue.str)
  let p2 := _add_param p1 "hl" (r.hl.map PValue.str)
  let p3 := _add_param p2 "exclude_airlines" (r.exclude_airlines.map PValue.str)
  let p4 := _add_param p3 "include_airlines" (r.include_airlines.map PValue.str)
  let p5 := _add_param p4 "outbound_times" (r.outbound_times.map PValue.str)
  let p6 := _add_param p5 "return_times" (r.return_times.map PValue.str)
  let p7 := _add_param p6 "layover_duration" (r.layover_duration.map PValue.str)
  let p8 := _add_param p7 "exclude_conns" (r.exclude_conns.map PValue.str)
  let p9 := _add_param p8 "departure_token" (r.departure_token.map PValue.str)
  _add_param p9 "booking_token" (r.booking_token.map PValue.str)

/-- The whole parameter assembly of `search_flights`. -/
def assembled (key : String) (ty : Int) (r : FlightRequest) : Params :=
  tailParams (gatedParams (baseParams key ty r) r) r

/-- `search_flights` up to (and excluding) the out-of-scope network call:
credential check, trip dispatch, parameter assembly.  `apiKey` is the value
of `os.getenv("SERPAPI_API_KEY")`. -/
def search_flights (apiKey : Option String) (r : FlightRequest) : Except SearchError Params :=
  if pyTruthyS apiKey = false then .error .configError
  else
    match tripDispatch r with
    | .error e => .error e
    | .ok ty => .ok (assembled (apiKey.getD "") ty r)

/-! ### Observers on build results -/

/-- Whether an `Except` result is a success. -/
def exIsOk {ε α : Type} : Except ε α → Bool
  | .ok _ => true
  | .error _ => false

/-- Whether a successful build's parameter set carries the key `k`
(`false` on a failed build). -/
def hasParam (res : Except SearchError Params) (k : String) : Bool :=
  match res with
  | .ok ps => (getP ps k).isSome
  | .error _ => false

/-- Whether the key `k` is absent from a successful build's parameter set
(vacuously `true` on a failed build). -/
def noParamKey (res : Except SearchError Params) (k : String) : Bool :=
  match res with
  | .ok ps => (getP ps k).isNone
  | .error _ => true

/-- What `_add_param` actually contributes for a given optional value. -/
def pvOf : Option PValue → Option PValue
  | none => none
  | some pv => if pv = PValue.str "" then none else some pv

/-- The contribution of an optional string argument to the parameter set:
present exactly when the value is neither `None` nor empty. -/
def optStrParam : Option String → Option PValue
  | none => none
  | some s => if s = "" then none else some (.str s)

/-- The shape of every successfully assembled parameter set for request
`r`: boolean flags serialized in lowercase, required-with-default integers
always present, the ten unconditional optional fields present exactly when
non-null and non-empty, and the trip-gated fields controlled by the trip
type: origin/destination/departure date appear (iff non-empty) only outside
multicity, the return date appears (iff non-empty) only under roundtrip,
and the multi-city blob appears only under multicity. -/
def paramsSpec (r : FlightRequest) (ps : Params) : Prop :=
  (getP ps "show_hidden" = some (.str (pyBoolStr r.show_hidden)) ∧
   getP ps "deep_search" = some (.str (pyBoolStr r.deep_search)) ∧
   getP ps "no_cache" = some (.str (pyBoolStr r.no_cache)) ∧
   getP ps "async" = some (.str (pyBoolStr r.async_req)) ∧
   getP ps "zero_trace" = some (.str (pyBoolStr r.zero_trace))) ∧
  (getP ps "travel_class" = some (.int r.travel_class) ∧
   getP ps "sort_by" = some (.int r.sort_by) ∧
   getP ps "stops" = some (.int r.stops) ∧
   getP ps "bags" = some (.int r.bags) ∧
   getP ps "adults" = some (.int r.adults) ∧
   getP ps "children" = some (.int r.children) ∧
   getP ps "infants_in_seat" = some (.int r.infants_in_seat) ∧
   getP ps "infants_on_lap" = some (.int r.infants_on_lap)) ∧
  (getP ps "gl" = optStrParam r.gl ∧
   getP ps "hl" = optStrParam r.hl ∧
   getP ps "exclude_airlines" = optStrParam r.exclude_airlines ∧
   getP ps "include_airlines" = optStrParam r.include_airlines ∧
   getP ps "outbound_times" = optStrParam r.outbound_times ∧
   getP ps "return_times" = optStrParam r.return_times ∧
   getP ps "layover_duration" = optStrParam r.layover_duration ∧
   getP ps "exclude_conns" = optStrParam r.exclude_conns ∧
   getP ps "departure_token" = optStrParam r.departure_token ∧
   getP ps "booking_token" = optStrParam r.booking_token) ∧
  (r.trip_type ≠ "multicity" →
     getP ps "departure_id" = optStrParam r.origin ∧
     getP ps "arrival_id" = optStrParam r.destination ∧
     getP ps "outbound_date" = optStrParam r.departure_date) ∧
  (r.trip_type = "multicity" →
     getP ps "departure_id" = none ∧
     getP ps "arrival_id" = none ∧
     getP ps "outbound_date" = none ∧
     (pyTruthyS r.multi_city_json = true →
        getP ps "multi_city_json" = optStrParam r.multi_city_json)) ∧
  (r.trip_type = "roundtrip" → getP ps "return_date" = optStrParam r.return_date) ∧
  (r.trip_type ≠ "roundtrip" → getP ps "return_date" = none) ∧
  (r.trip_type ≠ "multicity" → getP ps "multi_city_json" = none)

/-! ### Lemmas about the multi-city segment loop -/

/-- A fully valid (post-normalization) segment: truthy departure, arrival
and date fields. -/
def segOk (v : JVal) : Bool :=
  truthyOpt (v.getKey "departure_id") && truthyOpt (v.getKey "arrival_id") &&
    truthyOpt (v.getKey "date")

/-! ### Concrete fixtures -/

/-- The spec's multi-city example: the second segment has no departure. -/
def mcStr : String :=
  "[\x7b\"departure_id\": \"TPE\", \"arrival_id\": \"NRT\", \"date\": \"2025-06-29\"\x7d, \x7b\"arrival_id\": \"TPE\", \"date\": \"2025-07-03\"\x7d]"

/-- The spec's multi-city example, already parsed. -/
def segsInfer : List JVal :=
  [.obj [("departure_id", .str "TPE"), ("arrival_id", .str "NRT"), ("date", .str "2025-06-29")],
   .obj [("arrival_id", .str "TPE"), ("date", .str "2025-07-03")]]

/-- The normalized form of `segsInfer`: the inferred departure is appended
to the second segment's field list. -/
def segsInferOut : List JVal :=
  [.obj [("departure_id", .str "TPE"), ("arrival_id", .str "NRT"), ("date", .str "2025-06-29")],
   .obj [("arrival_id", .str "TPE"), ("date", .str "2025-07-03"), ("departure_id", .str "NRT")]]

/-- One segment lacking an arrival location. -/
def demoMissArr : List JVal :=
  [.obj [("departure_id", .str "TPE"), ("date", .str "2025-06-29")]]

/-- One segment lacking a date. -/
def demoMissDate : List JVal :=
  [.obj [("departure_id", .str "TPE"), ("arrival_id", .str "NRT")]]

/-- One segment lacking a departure location (first segment). -/
def demoMissDep : List JVal :=
  [.obj [("arrival_id", .str "NRT"), ("date", .str "2025-06-29")]]

/-- Segment 0 has no arrival and segment 1 has no departure: the situation
the 'cannot infer' branch is written for. -/
def demoNoInfer : List JVal :=
  [.obj [("departure_id", .str "TPE"), ("date", .str "2025-06-29")],
   .obj [("arrival_id", .str "TPE"), ("date", .str "2025-07-03")]]

/-- A fully populated valid one-way request. -/
def reqFull : FlightRequest :=
  { FlightRequest.base with
    origin := some "TPE", destination := some "KIX", departure_date := some "2025-06-29",
    gl := some "tw", hl := some "zh-TW", exclude_airlines := some "XX",
    outbound_times := some "4,18", layover_duration := some "90,330",
    departure_token := some "tok", show_hidden := true, adults := 2 }

/-- A multicity request whose segment string is the empty JSON array. -/
def reqMCempty : FlightRequest :=
  { FlightRequest.base with trip_type := "multicity", multi_city_json := some "[]" }

/-- A multicity request using the spec's inference example. -/
def reqMCinfer : FlightRequest :=
  { FlightRequest.base with trip_type := "multicity", multi_city_json := some mcStr }

/-- A multicity request that also supplies a (non-empty) origin. -/
def reqMCorigin : FlightRequest :=
  { FlightRequest.base with
    trip_type := "multicity", multi_city_json := some mcStr, origin := some "TPE" }

/-- A multicity request with no segment string at all. -/
def reqMCnone : FlightRequest :=
  { FlightRequest.base with trip_type := "multicity" }

/-- A multicity request whose segment string is not valid JSON. -/
def reqMCbad : FlightRequest :=
  { FlightRequest.base with trip_type := "multicity", multi_city_json := some "oops" }

/-- A roundtrip request lacking its return date. -/
def reqRTnoRet : FlightRequest :=
  { FlightRequest.base with
    trip_type := "roundtrip", origin := some "TPE", destination := some "KIX",
    departure_date := some "2025-06-29" }

/-- A one-way request that supplies a return date anyway. -/
def reqOneRet : FlightRequest :=
  { FlightRequest.base with
    origin := some "TPE", destination := some "KIX",
    departure_date := some "2025-06-29", return_date := some "2025-07-03" }

/-- A request with a trip type outside the enumerated set. -/
def reqBanana : FlightRequest :=
  { FlightRequest.base with
    trip_type := "banana", origin := some "TPE", destination := some "KIX",
    departure_date := some "2025-06-29" }

/-! ### Claim-level observers -/

/-- Whether a segment-validation result avoids the 'cannot infer' error. -/
def notCannotInferRes (res : Except McError (List JVal)) : Bool :=
  match res with
  | .error (.cannotInfer _) => false
  | _ => true

/-- `paramsSpec` on a build result (vacuous on failure). -/
def C7obs (r : FlightRequest) : Except SearchError Params → Prop
  | .ok ps => paramsSpec r ps
  | .error _ => True

/-- On a successful build, the multi-city parameter equals the raw string
`s` (vacuous on failure). -/
def mcjRawObs (s : String) : Except SearchError Params → Prop
  | .ok ps => getP ps "multi_city_json" = some (.str s)
  | .error _ => True

/-- On a successful build, the derived trip-type code is 2 (vacuous on
failure). -/
def typeParamIs2 : Except SearchError Params → Prop
  | .ok ps => getP ps "type" = some (.int 2)
  | .error _ => True

/-! ### Lookup lemmas for the parameter assembly -/

lemma getP_append_singleton (ps : Params) (k k' : String) (pv : PValue) :
    getP (ps ++ [(k, pv)]) k' =
      match getP ps k' with
      | some v => some v
      | none => if k = k' then some pv else none := by
  induction ps with
  | nil => simp [getP]
  | cons hd tl ih =>
    obtain ⟨k0, v0⟩ := hd
    by_cases h : k0 = k'
    · simp [getP, h]
    · simpa [getP, h] using ih

lemma getP_add_ne (ps : Params) (k : String) (v : Option PValue) {k' : String}
    (h : k' ≠ k) : getP (_add_param ps k v) k' = getP ps k' := by
  cases v with
  | none => rfl
  | some pv =>
    simp only [_add_param]
    by_cases he : pv = PValue.str ""
    · simp [he]
    · rw [if_neg he, getP_append_singleton]
      cases hg : getP ps k' with
      | some w => rfl
      | none => simp [Ne.symm h]

lemma getP_add_eq (ps : Params) (k : String) (v : Option PValue)
    (h : getP ps k = none) : getP (_add_param ps k v) k = pvOf v := by
  cases v with
  | none => simpa [_add_param, pvOf] using h
  | some pv =>
    simp only [_add_param, pvOf]
    by_cases he : pv = PValue.str ""
    · simp [he, h]
    · rw [if_neg he, if_neg he, getP_append_singleton, h]
      simp

lemma pvOf_mapStr (o : Option String) : pvOf (o.map PValue.str) = optStrParam o := by
  cases o with
  | none => rfl
  | some s =>
    show pvOf (some (PValue.str s)) = optStrParam (some s)
    by_cases h : s = ""
    · subst h
      rfl
    · have hne : PValue.str s ≠ PValue.str "" := by
        intro hc
        exact h (by injection hc)
      simp [pvOf, optStrParam, hne, h]

lemma getP_tail_ne (ps : Params) (r : FlightRequest) {k : String}
    (h1 : k ≠ "gl") (h2 : k ≠ "hl") (h3 : k ≠ "exclude_airlines")
    (h4 : k ≠ "include_airlines") (h5 : k ≠ "outbound_times") (h6 : k ≠ "return_times")
    (h7 : k ≠ "layover_duration") (h8 : k ≠ "exclude_conns") (h9 : k ≠ "departure_token")
    (h10 : k ≠ "booking_token") :
    getP (tailParams ps r) k = getP ps k := by
  simp only [tailParams]
  rw [getP_add_ne _ _ _ h10, getP_add_ne _ _ _ h9, getP_add_ne _ _ _ h8,
      getP_add_ne _ _ _ h7, getP_add_ne _ _ _ h6, getP_add_ne _ _ _ h5,
      getP_add_ne _ _ _ h4, getP_add_ne _ _ _ h3, getP_add_ne _ _ _ h2,
      getP_add_ne _ _ _ h1]

lemma getP_tail_gl (ps : Params) (r : FlightRequest) (h : getP ps "gl" = none) :
    getP (tailParams ps r) "gl" = optStrParam r.gl := by
  simp only [tailParams]
  rw [getP_add_ne _ _ _ (by decide), getP_add_ne _ _ _ (by decide),
      getP_add_ne _ _ _ (by decide), getP_add_ne _ _ _ (by decide),
      getP_add_ne _ _ _ (by decide), getP_add_ne _ _ _ (by decide),
      getP_add_ne _ _ _ (by decide), getP_add_ne _ _ _ (by decide),
      getP_add_ne _ _ _ (by decide), getP_add_eq _ _ _ h, pvOf_mapStr]

lemma getP_tail_hl (ps : Params) (r : FlightRequest) (h : getP ps "hl" = none) :
    getP (tailParams ps r) "hl" = optStrParam r.hl := by
  simp only [tailParams]
  rw [getP_add_ne _ _ _ (by decide), getP_add_ne _ _ _ (by decide),
      getP_add_ne _ _ _ (by decide), getP_add_ne _ _ _ (by decide),
      getP_add_ne _ _ _ (by decide), getP_add_ne _ _ _ (by decide),
      getP_add_ne _ _ _ (by decide), getP_add_ne _ _ _ (by decide),
      getP_add_eq _ _ _ ((getP_add_ne _ _ _ (by decide)).trans h), pvOf_mapStr]

lemma getP_tail_exair (ps : Params) (r : FlightRequest)
    (h : getP ps "exclude_airlines" = none) :
    getP (tailParams ps r) "exclude_airlines" = optStrParam r.exclude_airlines := by
  simp only [tailParams]
  rw [getP_add_ne _ _ _ (by decide), getP_add_ne _ _ _ (by decide),
      getP_add_ne _ _ _ (by decide), getP_add_ne _ _ _ (by decide),
      getP_add_ne _ _ _ (by decide), getP_add_ne _ _ _ (by decide),
      getP_add_ne _ _ _ (by decide),
      getP_add_eq _ _ _ ((getP_add_ne _ _ _ (by decide)).trans
        ((getP_add_ne _ _ _ (by decide)).trans h)), pvOf_mapStr]

lemma getP_tail_inair (ps : Params) (r : FlightRequest)
    (h : getP ps "include_airlines" = none) :
    getP (tailParams ps r) "include_airlines" = optStrParam r.include_airlines := by
  simp only [tailParams]
  rw [getP_add_ne _ _ _ (by decide), getP_add_ne _ _ _ (by decide),
      getP_add_ne _ _ _ (by decide), getP_add_ne _ _ _ (by decide),
      getP_add_ne _ _ _ (by decide), getP_add_ne _ _ _ (by decide),
      getP_add_eq _ _ _ ((getP_add_ne _ _ _ (by decide)).trans
        ((getP_add_ne _ _ _ (by decide)).trans
          ((getP_add_ne _ _ _ (by decide)).trans h))), pvOf_mapStr]

lemma getP_tail_obt (ps : Params) (r : FlightRequest)
    (h : getP ps "outbound_times" = none) :
    getP (tailParams ps r) "outbound_times" = optStrParam r.outbound_times := by
  simp only [tailParams]
  rw [getP_add_ne _ _ _ (by decide), getP_add_ne _ _ _ (by decide),
      getP_add_ne _ _ _ (by decide), getP_add_ne _ _ _ (by decide),
      getP_add_ne _ _ _ (by decide),
      getP_add_eq _ _ _ ((getP_add_ne _ _ _ (by decide)).trans
        ((getP_add_ne _ _ _ (by decide)).trans
          ((getP_add_ne _ _ _ (by decide)).trans
            ((getP_add_ne _ _ _ (by decide)).trans h)))), pvOf_mapStr]

lemma getP_tail_rtt (ps : Params) (r : FlightRequest)
    (h : getP ps "return_times" = none) :
    getP (tailParams ps r) "return_times" = optStrParam r.return_times := by
  simp only [tailParams]
  rw [getP_add_ne _ _ _ (by decide), getP_add_ne _ _ _ (by decide),
      getP_add_ne _ _ _ (by decide), getP_add_ne _ _ _ (by decide),
      getP_add_eq _ _ _ ((getP_add_ne _ _ _ (by decide)).trans
        ((getP_add_ne _ _ _ (by decide)).trans
          ((getP_add_ne _ _ _ (by decide)).trans
            ((getP_add_ne _ _ _ (by decide)).trans
              ((getP_add_ne _ _ _ (by decide)).trans h))))), pvOf_mapStr]

lemma getP_tail_lay (ps : Params) (r : FlightRequest)
    (h : getP ps "layover_duration" = none) :
    getP (tailParams ps r) "layover_duration" = optStrParam r.layover_duration := by
  simp only [tailParams]
  rw [getP_add_ne _ _ _ (by decide), getP_add_ne _ _ _ (by decide),
      getP_add_ne _ _ _ (by decide),
      getP_add_eq _ _ _ ((getP_add_ne _ _ _ (by decide)).trans
        ((getP_add_ne _ _ _ (by decide)).trans
          ((getP_add_ne _ _ _ (by decide)).trans
            ((getP_add_ne _ _ _ (by decide)).trans
              ((getP_add_ne _ _ _ (by decide)).trans
                ((getP_add_ne _ _ _ (by decide)).trans h)))))), pvOf_mapStr]

lemma getP_tail_exc (ps : Params) (r : FlightRequest)
    (h : getP ps "exclude_conns" = none) :
    getP (tailParams ps r) "exclude_conns" = optStrParam r.exclude_conns := by
  simp only [tailParams]
  rw [getP_add_ne _ _ _ (by decide), getP_add_ne _ _ _ (by decide),
      getP_add_eq _ _ _ ((getP_add_ne _ _ _ (by decide)).trans
        ((getP_add_ne _ _ _ (by decide)).trans
          ((getP_add_ne _ _ _ (by decide)).trans
            ((getP_add_ne _ _ _ (by decide)).trans
              ((getP_add_ne _ _ _ (by decide)).trans
                ((getP_add_ne _ _ _ (by decide)).trans
                  ((getP_add_ne _ _ _ (by decide)).trans h))))))), pvOf_mapStr]

lemma getP_tail_dtk (ps : Params) (r : FlightRequest)
    (h : getP ps "departure_token" = none) :
    getP (tailParams ps r) "departure_token" = optStrParam r.departure_token := by
  simp only [tailParams]
  rw [getP_add_ne _ _ _ (by decide),
      getP_add_eq _ _ _ ((getP_add_ne _ _ _ (by decide)).trans
        ((getP_add_ne _ _ _ (by decide)).trans
          ((getP_add_ne _ _ _ (by decide)).trans
            ((getP_add_ne _ _ _ (by decide)).trans
              ((getP_add_ne _ _ _ (by decide)).trans
                ((getP_add_ne _ _ _ (by decide)).trans
                  ((getP_add_ne _ _ _ (by decide)).trans
                    ((getP_add_ne _ _ _ (by decide)).trans h)))))))), pvOf_mapStr]

lemma getP_tail_btk (ps : Params) (r : FlightRequest)
    (h : getP ps "booking_token" = none) :
    getP (tailParams ps r) "booking_token" = optStrParam r.booking_token := by
  simp only [tailParams]
  rw [getP_add_eq _ _ _ ((getP_add_ne _ _ _ (by decide)).trans
        ((getP_add_ne _ _ _ (by decide)).trans
          ((getP_add_ne _ _ _ (by decide)).trans
            ((getP_add_ne _ _ _ (by decide)).trans
              ((getP_add_ne _ _ _ (by decide)).trans
                ((getP_add_ne _ _ _ (by decide)).trans
                  ((getP_add_ne _ _ _ (by decide)).trans
                    ((getP_add_ne _ _ _ (by decide)).trans
                      ((getP_add_ne _ _ _ (by decide)).trans h))))))))), pvOf_mapStr]

lemma getP_gated_ne (ps : Params) (r : FlightRequest) {k : String}
    (hd : k ≠ "departure_id") (ha : k ≠ "arrival_id") (ho : k ≠ "outbound_date")
    (hr : k ≠ "return_date") (hm : k ≠ "multi_city_json") :
    getP (gatedParams ps r) k = getP ps k := by
  simp only [gatedParams]
  split
  · rw [getP_add_ne _ _ _ hm]
    split
    · split
      · rw [getP_add_ne _ _ _ hr, getP_add_ne _ _ _ ho, getP_add_ne _ _ _ ha,
            getP_add_ne _ _ _ hd]
      · rw [getP_add_ne _ _ _ ho, getP_add_ne _ _ _ ha, getP_add_ne _ _ _ hd]
    · rfl
  · split
    · split
      · rw [getP_add_ne _ _ _ hr, getP_add_ne _ _ _ ho, getP_add_ne _ _ _ ha,
            getP_add_ne _ _ _ hd]
      · rw [getP_add_ne _ _ _ ho, getP_add_ne _ _ _ ha, getP_add_ne _ _ _ hd]
    · rfl

lemma getP_gated_dep (ps : Params) (r : FlightRequest)
    (h : r.trip_type ≠ "multicity") (hps : getP ps "departure_id" = none) :
    getP (gatedParams ps r) "departure_id" = optStrParam r.origin := by
  simp only [gatedParams]
  rw [if_neg (fun hc => h hc.2), if_pos h]
  split
  · rw [getP_add_ne _ _ _ (by decide), getP_add_ne _ _ _ (by decide),
        getP_add_ne _ _ _ (by decide), getP_add_eq _ _ _ hps, pvOf_mapStr]
  · rw [getP_add_ne _ _ _ (by decide), getP_add_ne _ _ _ (by decide),
        getP_add_eq _ _ _ hps, pvOf_mapStr]

lemma getP_gated_arr (ps : Params) (r : FlightRequest)
    (h : r.trip_type ≠ "multicity") (hps : getP ps "arrival_id" = none) :
    getP (gatedParams ps r) "arrival_id" = optStrParam r.destination := by
  simp only [gatedParams]
  rw [if_neg (fun hc => h hc.2), if_pos h]
  split
  · rw [getP_add_ne _ _ _ (by decide), getP_add_ne _ _ _ (by decide),
        getP_add_eq _ _ _ ((getP_add_ne _ _ _ (by decide)).trans hps), pvOf_mapStr]
  · rw [getP_add_ne _ _ _ (by decide),
        getP_add_eq _ _ _ ((getP_add_ne _ _ _ (by decide)).trans hps), pvOf_mapStr]

lemma getP_gated_out (ps : Params) (r : FlightRequest)
    (h : r.trip_type ≠ "multicity") (hps : getP ps "outbound_date" = none) :
    getP (gatedParams ps r) "outbound_date" = optStrParam r.departure_date := by
  simp only [gatedParams]
  rw [if_neg (fun hc => h hc.2), if_pos h]
  split
  · rw [getP_add_ne _ _ _ (by decide),
        getP_add_eq _ _ _ ((getP_add_ne _ _ _ (by decide)).trans
          ((getP_add_ne _ _ _ (by decide)).trans hps)), pvOf_mapStr]
  · rw [getP_add_eq _ _ _ ((getP_add_ne _ _ _ (by decide)).trans
          ((getP_add_ne _ _ _ (by decide)).trans hps)), pvOf_mapStr]

lemma getP_gated_mc_ne (ps : Params) (r : FlightRequest) {k : String}
    (h : r.trip_type = "multicity") (hk : k ≠ "multi_city_json") :
    getP (gatedParams ps r) k = getP ps k := by
  simp only [gatedParams]
  by_cases hb : pyTruthyS r.multi_city_json = true ∧ r.trip_type = "multicity"
  · rw [if_pos hb, getP_add_ne _ _ _ hk, if_neg (fun hA => hA h)]
  · rw [if_neg hb, if_neg (fun hA => hA h)]

lemma getP_gated_mcj (ps : Params) (r : FlightRequest)
    (h : r.trip_type = "multicity") (hs : pyTruthyS r.multi_city_json = true)
    (hps : getP ps "multi_city_json" = none) :
    getP (gatedParams ps r) "multi_city_json" = optStrParam r.multi_city_json := by
  simp only [gatedParams]
  rw [if_pos ⟨hs, h⟩, if_neg (fun hA => hA h), getP_add_eq _ _ _ hps, pvOf_mapStr]

lemma getP_gated_return_ne (ps : Params) (r : FlightRequest)
    (hc : ¬(pyTruthyS r.return_date = true ∧ r.trip_type = "roundtrip")) :
    getP (gatedParams ps r) "return_date" = getP ps "return_date" := by
  simp only [gatedParams]
  by_cases hb : pyTruthyS r.multi_city_json = true ∧ r.trip_type = "multicity"
  · rw [if_pos hb, getP_add_ne _ _ _ (by decide), if_neg hc]
    split
    · rw [getP_add_ne _ _ _ (by decide), getP_add_ne _ _ _ (by decide),
          getP_add_ne _ _ _ (by decide)]
    · rfl
  · rw [if_neg hb, if_neg hc]
    split
    · rw [getP_add_ne _ _ _ (by decide), getP_add_ne _ _ _ (by decide),
          getP_add_ne _ _ _ (by decide)]
    · rfl

lemma optStrParam_falsy (o : Option String) (h : pyTruthyS o = false) :
    optStrParam o = none := by
  cases o with
  | none => rfl
  | some s =>
    have h2 : s.isEmpty = true := by
      cases hb : s.isEmpty
      · rw [show pyTruthyS (some s) = !s.isEmpty from rfl, hb] at h
        exact absurd h (by decide)
      · rfl
    have hs : s = "" := (String.isEmpty_iff s).mp h2
    subst hs
    rfl

lemma getP_gated_return_rt (ps : Params) (r : FlightRequest)
    (h : r.trip_type = "roundtrip") (hps : getP ps "return_date" = none) :
    getP (gatedParams ps r) "return_date" = optStrParam r.return_date := by
  have hnm : r.trip_type ≠ "multicity" := by
    rw [h]
    decide
  simp only [gatedParams]
  rw [if_neg (fun hc => hnm hc.2), if_pos hnm]
  by_cases hrt : pyTruthyS r.return_date = true
  · rw [if_pos ⟨hrt, h⟩,
        getP_add_eq _ _ _ ((getP_add_ne _ _ _ (by decide)).trans
          ((getP_add_ne _ _ _ (by decide)).trans
            ((getP_add_ne _ _ _ (by decide)).trans hps))), pvOf_mapStr]
  · rw [if_neg (fun hc => hrt hc.1),
        getP_add_ne _ _ _ (by decide), getP_add_ne _ _ _ (by decide),
        getP_add_ne _ _ _ (by decide), hps]
    have hf : pyTruthyS r.return_date = false := by
      cases hb : pyTruthyS r.return_date
      · rfl
      · exact absurd hb hrt
    rw [optStrParam_falsy _ hf]

lemma getP_gated_mcj_skip (ps : Params) (r : FlightRequest)
    (h : r.trip_type ≠ "multicity") :
    getP (gatedParams ps r) "multi_city_json" = getP ps "multi_city_json" := by
  simp only [gatedParams]
  rw [if_neg (fun hc => h hc.2), if_pos h]
  by_cases hC : pyTruthyS r.return_date = true ∧ r.trip_type = "roundtrip"
  · rw [if_pos hC, getP_add_ne _ _ _ (by decide), getP_add_ne _ _ _ (by decide),
        getP_add_ne _ _ _ (by decide), getP_add_ne _ _ _ (by decide)]
  · rw [if_neg hC, getP_add_ne _ _ _ (by decide), getP_add_ne _ _ _ (by decide),
        getP_add_ne _ _ _ (by decide)]

lemma paramsSpec_assembled (key : String) (ty : Int) (r : FlightRequest) :
    paramsSpec r (assembled key ty r) := by
  have hbase : ∀ k : String, k ≠ "gl" → k ≠ "hl" → k ≠ "exclude_airlines" →
      k ≠ "include_airlines" → k ≠ "outbound_times" → k ≠ "return_times" →
      k ≠ "layover_duration" → k ≠ "exclude_conns" → k ≠ "departure_token" →
      k ≠ "booking_token" → k ≠ "departure_id" → k ≠ "arrival_id" →
      k ≠ "outbound_date" → k ≠ "return_date" → k ≠ "multi_city_json" →
      getP (assembled key ty r) k = getP (baseParams key ty r) k := by
    intro k h1 h2 h3 h4 h5 h6 h7 h8 h9 h10 h11 h12 h13 h14 h15
    simp only [assembled]
    rw [getP_tail_ne _ _ h1 h2 h3 h4 h5 h6 h7 h8 h9 h10,
        getP_gated_ne _ _ h11 h12 h13 h14 h15]
  have hgnone : ∀ k : String, k ≠ "departure_id" → k ≠ "arrival_id" →
      k ≠ "outbound_date" → k ≠ "return_date" → k ≠ "multi_city_json" →
      getP (baseParams key ty r) k = none →
      getP (gatedParams (baseParams key ty r) r) k = none := by
    intro k h11 h12 h13 h14 h15 hb
    rw [getP_gated_ne _ _ h11 h12 h13 h14 h15, hb]
  refine ⟨⟨?_, ?_, ?_, ?_, ?_⟩, ⟨?_, ?_, ?_, ?_, ?_, ?_, ?_, ?_⟩,
      ⟨?_, ?_, ?_, ?_, ?_, ?_, ?_, ?_, ?_, ?_⟩, ?_, ?_, ?_, ?_, ?_⟩
  · rw [hbase _ (by decide) (by decide) (by decide) (by decide) (by decide) (by decide)
        (by decide) (by decide) (by decide) (by decide) (by decide) (by decide) (by decide)
        (by decide) (by decide)]
    exact rfl
  · rw [hbase _ (by decide) (by decide) (by decide) (by decide) (by decide) (by decide)
        (by decide) (by decide) (by decide) (by decide) (by decide) (by decide) (by decide)
        (by decide) (by decide)]
    exact rfl
  · rw [hbase _ (by decide) (by decide) (by decide) (by decide) (by decide) (by decide)
        (by decide) (by decide) (by decide) (by decide) (by decide) (by decide) (by decide)
        (by decide) (by decide)]
    exact rfl
  · rw [hbase _ (by decide) (by decide) (by decide) (by decide) (by decide) (by decide)
        (by decide) (by decide) (by decide) (by decide) (by decide) (by decide) (by decide)
        (by decide) (by decide)]
    exact rfl
  · rw [hbase _ (by decide) (by decide) (by decide) (by decide) (by decide) (by decide)
        (by decide) (by decide) (by decide) (by decide) (by decide) (by decide) (by decide)
        (by decide) (by decide)]
    exact rfl
  · rw [hbase _ (by decide) (by decide) (by decide) (by decide) (by decide) (by decide)
        (by decide) (by decide) (by decide) (by decide) (by decide) (by decide) (by decide)
        (by decide) (by decide)]
    exact rfl
  · rw [hbase _ (by decide) (by decide) (by decide) (by decide) (by decide) (by decide)
        (by decide) (by decide) (by decide) (by decide) (by decide) (by decide) (by decide)
        (by decide) (by decide)]
    exact rfl
  · rw [hbase _ (by decide) (by decide) (by decide) (by decide) (by decide) (by decide)
        (by decide) (by decide) (by decide) (by decide) (by decide) (by decide) (by decide)
        (by decide) (by decide)]
    exact rfl
  · rw [hbase _ (by decide) (by decide) (by decide) (by decide) (by decide) (by decide)
        (by decide) (by decide) (by decide) (by decide) (by decide) (by decide) (by decide)
        (by decide) (by decide)]
    exact rfl
  · rw [hbase _ (by decide) (by decide) (by decide) (by decide) (by decide) (by decide)
        (by decide) (by decide) (by decide) (by decide) (by decide) (by decide) (by decide)
        (by decide) (by decide)]
    exact rfl
  · rw [hbase _ (by decide) (by decide) (by decide) (by decide) (by decide) (by decide)
        (by decide) (by decide) (by decide) (by decide) (by decide) (by decide) (by decide)
        (by decide) (by decide)]
    exact rfl
  · rw [hbase _ (by decide) (by decide) (by decide) (by decide) (by decide) (by decide)
        (by decide) (by decide) (by decide) (by decide) (by decide) (by decide) (by decide)
        (by decide) (by decide)]
    exact rfl
  · rw [hbase _ (by decide) (by decide) (by decide) (by decide) (by decide) (by decide)
        (by decide) (by decide) (by decide) (by decide) (by decide) (by decide) (by decide)
        (by decide) (by decide)]
    exact rfl
  · exact getP_tail_gl _ _ (hgnone _ (by decide) (by decide) (by decide) (by decide)
      (by decide) rfl)
  · exact getP_tail_hl _ _ (hgnone _ (by decide) (by decide) (by decide) (by decide)
      (by decide) rfl)
  · exact getP_tail_exair _ _ (hgnone _ (by decide) (by decide) (by decide) (by decide)
      (by decide) rfl)
  · exact getP_tail_inair _ _ (hgnone _ (by decide) (by decide) (by decide) (by decide)
      (by decide) rfl)
  · exact getP_tail_obt _ _ (hgnone _ (by decide) (by decide) (by decide) (by decide)
      (by decide) rfl)
  · exact getP_tail_rtt _ _ (hgnone _ (by decide) (by decide) (by decide) (by decide)
      (by decide) rfl)
  · exact getP_tail_lay _ _ (hgnone _ (by decide) (by decide) (by decide) (by decide)
      (by decide) rfl)
  · exact getP_tail_exc _ _ (hgnone _ (by decide) (by decide) (by decide) (by decide)
      (by decide) rfl)
  · exact getP_tail_dtk _ _ (hgnone _ (by decide) (by decide) (by decide) (by decide)
      (by decide) rfl)
  · exact getP_tail_btk _ _ (hgnone _ (by decide) (by decide) (by decide) (by decide)
      (by decide) rfl)
  · intro h
    refine ⟨?_, ?_, ?_⟩
    · rw [show assembled key ty r = tailParams (gatedParams (baseParams key ty r) r) r
          from rfl,
          getP_tail_ne _ _ (by decide) (by decide) (by decide) (by decide) (by decide)
            (by decide) (by decide) (by decide) (by decide) (by decide),
          getP_gated_dep (baseParams key ty r) r h rfl]
    · rw [show assembled key ty r = tailParams (gatedParams (baseParams key ty r) r) r
          from rfl,
          getP_tail_ne _ _ (by decide) (by decide) (by decide) (by decide) (by decide)
            (by decide) (by decide) (by decide) (by decide) (by decide),
          getP_gated_arr (baseParams key ty r) r h rfl]
    · rw [show assembled key ty r = tailParams (gatedParams (baseParams key ty r) r) r
          from rfl,
          getP_tail_ne _ _ (by decide) (by decide) (by decide) (by decide) (by decide)
            (by decide) (by decide) (by decide) (by decide) (by decide),
          getP_gated_out (baseParams key ty r) r h rfl]
  · intro h
    refine ⟨?_, ?_, ?_, ?_⟩
    · rw [show assembled key ty r = tailParams (gatedParams (baseParams key ty r) r) r
          from rfl,
          getP_tail_ne _ _ (by decide) (by decide) (by decide) (by decide) (by decide)
            (by decide) (by decide) (by decide) (by decide) (by decide),
          getP_gated_mc_ne _ _ h (by decide)]
      exact rfl
    · rw [show assembled key ty r = tailParams (gatedParams (baseParams key ty r) r) r
          from rfl,
          getP_tail_ne _ _ (by decide) (by decide) (by decide) (by decide) (by decide)
            (by decide) (by decide) (by decide) (by decide) (by decide),
          getP_gated_mc_ne _ _ h (by decide)]
      exact rfl
    · rw [show assembled key ty r = tailParams (gatedParams (baseParams key ty r) r) r
          from rfl,
          getP_tail_ne _ _ (by decide) (by decide) (by decide) (by decide) (by decide)
            (by decide) (by decide) (by decide) (by decide) (by decide),
          getP_gated_mc_ne _ _ h (by decide)]
      exact rfl
    · intro hs
      rw [show assembled key ty r = tailParams (gatedParams (baseParams key ty r) r) r
          from rfl,
          getP_tail_ne _ _ (by decide) (by decide) (by decide) (by decide) (by decide)
            (by decide) (by decide) (by decide) (by decide) (by decide),
          getP_gated_mcj (baseParams key ty r) r h hs rfl]
  · intro h
    rw [show assembled key ty r = tailParams (gatedParams (baseParams key ty r) r) r
        from rfl,
        getP_tail_ne _ _ (by decide) (by decide) (by decide) (by decide) (by decide)
          (by decide) (by decide) (by decide) (by decide) (by decide),
        getP_gated_return_rt (baseParams key ty r) r h rfl]
  · intro h
    rw [show assembled key ty r = tailParams (gatedParams (baseParams key ty r) r) r
        from rfl,
        getP_tail_ne _ _ (by decide) (by decide) (by decide) (by decide) (by decide)
          (by decide) (by decide) (by decide) (by decide) (by decide),
        getP_gated_return_ne _ _ (fun hc => h hc.2)]
    exact rfl
  · intro h
    rw [show assembled key ty r = tailParams (gatedParams (baseParams key ty r) r) r
        from rfl,
        getP_tail_ne _ _ (by decide) (by decide) (by decide) (by decide) (by decide)
          (by decide) (by decide) (by decide) (by decide) (by decide),
        getP_gated_mcj_skip (baseParams key ty r) r h]
    exact rfl

lemma lookupFs_setFs_self (fs : List (String × JVal)) (k : String) (v : JVal) :
    lookupFs (setFs fs k v) k = some v := by
  induction fs with
  | nil => simp [setFs, lookupFs]
  | cons hd tl ih =>
    obtain ⟨k0, v0⟩ := hd
    by_cases h : k0 = k
    · simp [setFs, h, lookupFs]
    · simp [setFs, h, lookupFs, ih]

lemma lookupFs_setFs_ne (fs : List (String × JVal)) (k k' : String) (v : JVal)
    (h : k' ≠ k) : lookupFs (setFs fs k v) k' = lookupFs fs k' := by
  have h2 : k ≠ k' := Ne.symm h
  induction fs with
  | nil => simp [setFs, lookupFs, h2]
  | cons hd tl ih =>
    obtain ⟨k0, v0⟩ := hd
    by_cases h0 : k0 = k
    · subst h0
      simp [setFs, lookupFs, h2]
    · simp [setFs, h0, lookupFs, ih]

lemma getKey_setKey_self (fs : List (String × JVal)) (k : String) (v : JVal) :
    ((JVal.obj fs).setKey k v).getKey k = some v := by
  simp [JVal.setKey, JVal.getKey, lookupFs_setFs_self]

lemma getKey_setKey_ne (fs : List (String × JVal)) (k k' : String) (v : JVal)
    (h : k' ≠ k) : ((JVal.obj fs).setKey k v).getKey k' = (JVal.obj fs).getKey k' := by
  simp [JVal.setKey, JVal.getKey, lookupFs_setFs_ne _ _ _ _ h]

lemma checkSegment_ok {i : Nat} {prev : Option JVal} {seg seg1 : JVal}
    (h : checkSegment i prev seg = .ok seg1) :
    segOk seg1 = true ∧
    seg1.getKey "arrival_id" = seg.getKey "arrival_id" ∧
    seg1.getKey "date" = seg.getKey "date" ∧
    (truthyOpt (seg.getKey "departure_id") = true → seg1 = seg) ∧
    (truthyOpt (seg.getKey "departure_id") = false →
      i ≠ 0 ∧ ∃ p, prev = some p ∧ truthyOpt (p.getKey "arrival_id") = true ∧
        seg1.getKey "departure_id" = p.getKey "arrival_id") := by
  cases seg with
  | null => simp [checkSegment, JVal.isObj] at h
  | bool b => simp [checkSegment, JVal.isObj] at h
  | num n => simp [checkSegment, JVal.isObj] at h
  | str s => simp [checkSegment, JVal.isObj] at h
  | arr xs => simp [checkSegment, JVal.isObj] at h
  | obj fs =>
    simp only [checkSegment, JVal.isObj, Bool.true_eq_false, if_false] at h
    cases hdep : truthyOpt ((JVal.obj fs).getKey "departure_id") with
    | true =>
      rw [hdep] at h
      simp only [Bool.true_eq_false, if_false] at h
      cases harr : truthyOpt ((JVal.obj fs).getKey "arrival_id") with
      | false => rw [harr] at h; simp at h
      | true =>
        rw [harr] at h
        simp only [Bool.true_eq_false, if_false] at h
        cases hdate : truthyOpt ((JVal.obj fs).getKey "date") with
        | false => rw [hdate] at h; simp at h
        | true =>
          rw [hdate] at h
          simp only [Bool.true_eq_false, if_false, Except.ok.injEq] at h
          subst h
          refine ⟨by simp [segOk, hdep, harr, hdate], rfl, rfl, fun _ => rfl, ?_⟩
          intro hc
          exact absurd hc (by simp)
    | false =>
      rw [hdep] at h
      simp only [if_true] at h
      by_cases hi : i = 0
      · rw [if_pos hi] at h
        simp at h
      · rw [if_neg hi] at h
        cases hpa : truthyOpt (prevArrival prev) with
        | false => rw [hpa] at h; simp at h
        | true =>
          rw [hpa] at h
          simp only [Bool.true_eq_false, if_false] at h
          obtain ⟨p, hp⟩ : ∃ p, prev = some p := by
            cases prev with
            | none => rw [show prevArrival none = none from rfl] at hpa; simp [truthyOpt] at hpa
            | some p => exact ⟨p, rfl⟩
          subst hp
          rw [show prevArrival (some p) = p.getKey "arrival_id" from rfl] at hpa h
          obtain ⟨w, hw⟩ : ∃ w, p.getKey "arrival_id" = some w := by
            cases hpk : p.getKey "arrival_id" with
            | none => rw [hpk] at hpa; simp [truthyOpt] at hpa
            | some w => exact ⟨w, rfl⟩
          rw [hw] at h
          set X : JVal := (JVal.obj fs).setKey "departure_id" ((some w).getD JVal.null) with hX
          have hXdep : X.getKey "departure_id" = some w := by
            rw [hX]
            exact getKey_setKey_self fs _ _
          have hXarr : X.getKey "arrival_id" = (JVal.obj fs).getKey "arrival_id" := by
            rw [hX]
            exact getKey_setKey_ne fs _ _ _ (by decide)
          have hXdate : X.getKey "date" = (JVal.obj fs).getKey "date" := by
            rw [hX]
            exact getKey_setKey_ne fs _ _ _ (by decide)
          cases harr : truthyOpt (X.getKey "arrival_id") with
          | false => rw [harr] at h; simp at h
          | true =>
            rw [harr] at h
            simp only [Bool.true_eq_false, if_false] at h
            cases hdate : truthyOpt (X.getKey "date") with
            | false => rw [hdate] at h; simp at h
            | true =>
              rw [hdate] at h
              simp only [Bool.true_eq_false, if_false, Except.ok.injEq] at h
              subst h
              refine ⟨?_, ?_, ?_, ?_, ?_⟩
              · simp [segOk, harr, hdate, hXdep]
                rw [hw] at hpa
                simpa [truthyOpt] using hpa
              · exact hXarr
              · exact hXdate
              · intro hc
                exact absurd hc (by simp)
              · intro _
                refine ⟨hi, p, rfl, hpa, ?_⟩
                rw [hXdep, hw]

lemma checkSegment_no_cannotInfer {i : Nat} {prev : Option JVal} {seg : JVal} {e : McError}
    (hinv : (i = 0 ∧ prev = none) ∨
      ∃ p, prev = some p ∧ truthyOpt (p.getKey "arrival_id") = true)
    (h : checkSegment i prev seg = .error e) (n : Nat) : e ≠ McError.cannotInfer n := by
  intro hc
  subst hc
  cases seg with
  | null => simp [checkSegment, JVal.isObj] at h
  | bool b => simp [checkSegment, JVal.isObj] at h
  | num m => simp [checkSegment, JVal.isObj] at h
  | str s => simp [checkSegment, JVal.isObj] at h
  | arr xs => simp [checkSegment, JVal.isObj] at h
  | obj fs =>
    simp only [checkSegment, JVal.isObj, Bool.true_eq_false, if_false] at h
    cases hdep : truthyOpt ((JVal.obj fs).getKey "departure_id") with
    | true =>
      rw [hdep] at h
      simp only [Bool.true_eq_false, if_false] at h
      cases harr : truthyOpt ((JVal.obj fs).getKey "arrival_id") with
      | false => rw [harr] at h; simp at h
      | true =>
        rw [harr] at h
        simp only [Bool.true_eq_false, if_false] at h
        cases hdate : truthyOpt ((JVal.obj fs).getKey "date") with
        | false => rw [hdate] at h; simp at h
        | true => rw [hdate] at h; simp at h
    | false =>
      rw [hdep] at h
      simp only [if_true] at h
      by_cases hi : i = 0
      · rw [if_pos hi] at h
        simp at h
      · rw [if_neg hi] at h
        cases hpa : truthyOpt (prevArrival prev) with
        | false =>
          rcases hinv with ⟨hi0, _⟩ | ⟨p, hp, hpt⟩
          · exact hi hi0
          · subst hp
            rw [show prevArrival (some p) = p.getKey "arrival_id" from rfl, hpt] at hpa
            exact absurd hpa (by simp)
        | true =>
          rw [hpa] at h
          simp only [Bool.true_eq_false, if_false] at h
          cases harr : truthyOpt
              (((JVal.obj fs).setKey "departure_id"
                ((prevArrival prev).getD JVal.null)).getKey "arrival_id") with
          | false => rw [harr] at h; simp at h
          | true =>
            rw [harr] at h
            simp only [Bool.true_eq_false, if_false] at h
            cases hdate : truthyOpt
                (((JVal.obj fs).setKey "departure_id"
                  ((prevArrival prev).getD JVal.null)).getKey "date") with
            | false => rw [hdate] at h; simp at h
            | true => rw [hdate] at h; simp at h

lemma vsf_ok_spec : ∀ (segs : List JVal) (i : Nat) (prev : Option JVal) (out : List JVal),
    validateSegsFrom i prev segs = .ok out →
    out.length = segs.length ∧
    (∀ j, j < segs.length →
      segOk (out.getD j JVal.null) = true ∧
      (out.getD j JVal.null).getKey "arrival_id" = (segs.getD j JVal.null).getKey "arrival_id" ∧
      (out.getD j JVal.null).getKey "date" = (segs.getD j JVal.null).getKey "date" ∧
      (truthyOpt ((segs.getD j JVal.null).getKey "departure_id") = true →
        (out.getD j JVal.null).getKey "departure_id" =
          (segs.getD j JVal.null).getKey "departure_id") ∧
      (truthyOpt ((segs.getD j JVal.null).getKey "departure_id") = false →
        (j = 0 → ∃ p, prev = some p ∧ truthyOpt (p.getKey "arrival_id") = true ∧
          (out.getD j JVal.null).getKey "departure_id" = p.getKey "arrival_id") ∧
        (∀ j', j = j' + 1 →
          (out.getD j JVal.null).getKey "departure_id" =
            (segs.getD j' JVal.null).getKey "arrival_id"))) := by
  intro segs
  induction segs with
  | nil =>
    intro i prev out h
    simp only [validateSegsFrom, Except.ok.injEq] at h
    subst h
    exact ⟨rfl, fun j hj => absurd hj (by simp)⟩
  | cons seg rest ih =>
    intro i prev out h
    simp only [validateSegsFrom] at h
    split at h
    · exact absurd h (by simp)
    · rename_i seg1 hc
      split at h
      · exact absurd h (by simp)
      · rename_i rest1 hr
        have hout : seg1 :: rest1 = out := by simpa using h
        subst hout
        obtain ⟨hlen, hspec⟩ := ih (i + 1) (some seg1) rest1 hr
        obtain ⟨hok1, harr1, hdate1, hdepT, hdepF⟩ := checkSegment_ok hc
        constructor
        · simpa using hlen
        · intro j hj
          cases j with
          | zero =>
            simp only [List.getD_cons_zero]
            refine ⟨hok1, harr1, hdate1, fun ht => by rw [hdepT ht], ?_⟩
            intro hf
            obtain ⟨_, p, hp, hpt, heq⟩ := hdepF hf
            exact ⟨fun _ => ⟨p, hp, hpt, heq⟩, fun j' hj' => absurd hj' (by omega)⟩
          | succ j =>
            have hjr : j < rest.length := by simpa using hj
            obtain ⟨hsok, hsarr, hsdate, hsT, hsF⟩ := hspec j hjr
            simp only [List.getD_cons_succ]
            refine ⟨hsok, hsarr, hsdate, hsT, ?_⟩
            intro hf
            obtain ⟨h0, hS⟩ := hsF hf
            refine ⟨fun hc0 => absurd hc0 (by omega), ?_⟩
            intro j' hj'
            have hjj : j' = j := by omega
            subst hjj
            cases j' with
            | zero =>
              obtain ⟨p, hp, hpt, heq⟩ := h0 rfl
              have hp' : p = seg1 := by
                injection hp with h''
                exact h''.symm
              subst hp'
              simp only [List.getD_cons_zero]
              rw [heq, harr1]
            | succ jj =>
              have hSS := hS jj rfl
              simp only [List.getD_cons_succ]
              exact hSS

lemma vsf_no_cannotInfer : ∀ (segs : List JVal) (i : Nat) (prev : Option JVal),
    ((i = 0 ∧ prev = none) ∨
      ∃ p, prev = some p ∧ truthyOpt (p.getKey "arrival_id") = true) →
    ∀ n, validateSegsFrom i prev segs ≠ .error (.cannotInfer n) := by
  intro segs
  induction segs with
  | nil =>
    intro i prev hinv n hc
    simp [validateSegsFrom] at hc
  | cons seg rest ih =>
    intro i prev hinv n hc
    simp only [validateSegsFrom] at hc
    split at hc
    · rename_i e hcs
      have he : e = McError.cannotInfer n := by simpa using hc
      exact checkSegment_no_cannotInfer hinv hcs n he
    · rename_i seg1 hcs
      split at hc
      · rename_i e hr
        have he : e = McError.cannotInfer n := by simpa using hc
        subst he
        obtain ⟨hok1, _, _, _, _⟩ := checkSegment_ok hcs
        have harr1 : truthyOpt (seg1.getKey "arrival_id") = true := by
          simp only [segOk, Bool.and_eq_true] at hok1
          exact hok1.1.2
        exact ih (i + 1) (some seg1) (Or.inr ⟨seg1, rfl, harr1⟩) n hr
      · exact absurd hc (by simp)

lemma vmc_no_cannotInfer (s : String) (n : Nat) :
    _validate_multicity_segments s ≠ .error (.cannotInfer n) := by
  intro hc
  simp only [_validate_multicity_segments] at hc
  split at hc
  · simp at hc
  · split at hc
    · exact vsf_no_cannotInfer _ 0 none (Or.inl ⟨rfl, rfl⟩) n hc
    · simp at hc

/-! ### Claims -/

/-- C6: for every request, when the API credential is absent from the
environment, `search_flights` fails with the distinct missing-credential
error (`EnvironmentError`, the spec's ConfigurationError) regardless of
every other field, before any validation; the error is distinct from every
validation error. -/
theorem C6_missing_credential (r : FlightRequest) :
    search_flights none r = .error .configError ∧
    ∀ e, SearchError.configError ≠ SearchError.validation e := by
  refine ⟨rfl, ?_⟩
  intro e hc
  cases hc

/-- C4: for every roundtrip request whose return date is absent or empty
(and a present credential), the build fails with the return-date
`ValueError` before any parameter is assembled. -/
theorem C4_roundtrip_missing_return (apiKey : Option String) (r : FlightRequest)
    (hk : pyTruthyS apiKey = true) (ht : r.trip_type = "roundtrip")
    (hr : pyTruthyS r.return_date = false) :
    search_flights apiKey r = .error (.validation .returnDateRequired) := by
  simp only [search_flights]
  rw [if_neg (by simp [hk])]
  have hd : tripDispatch r = .error (.validation .returnDateRequired) := by
    simp only [tripDispatch]
    rw [if_pos ht, if_pos hr]
  rw [hd]

theorem C4_witness :
    pyTruthyS (some "key") = true ∧ reqRTnoRet.trip_type = "roundtrip" ∧
    pyTruthyS reqRTnoRet.return_date = false ∧
    search_flights (some "key") reqRTnoRet = .error (.validation .returnDateRequired) :=
  ⟨rfl, rfl, rfl, C4_roundtrip_missing_return (some "key") reqRTnoRet rfl rfl rfl⟩

/-- C8: for every one-way request (even one that supplies a return date),
a successful build's parameter set contains no `return_date` key. -/
theorem C8_oneway_no_return_key (apiKey : Option String) (r : FlightRequest)
    (ht : r.trip_type = "oneway") :
    noParamKey (search_flights apiKey r) "return_date" = true := by
  have hcnd : ¬(pyTruthyS r.return_date = true ∧ r.trip_type = "roundtrip") := by
    intro hc
    rw [ht] at hc
    exact absurd hc.2 (by decide)
  simp only [search_flights]
  split
  · rfl
  · split
    · rfl
    · rename_i ty hty
      show (getP (assembled (apiKey.getD "") ty r) "return_date").isNone = true
      simp only [assembled]
      rw [getP_tail_ne _ _ (by decide) (by decide) (by decide) (by decide) (by decide)
            (by decide) (by decide) (by decide) (by decide) (by decide),
          getP_gated_return_ne _ _ hcnd]
      rfl

theorem C8_witness :
    reqOneRet.trip_type = "oneway" ∧ reqOneRet.return_date = some "2025-07-03" ∧
    noParamKey (search_flights (some "key") reqOneRet) "return_date" = true :=
  ⟨rfl, rfl, C8_oneway_no_return_key (some "key") reqOneRet rfl⟩

/-- C10: the 'cannot infer departure_id' branch of the multi-city segment
validation is unreachable: no segment sequence and no input string can make
the validator return that error, because whenever segment `i > 0` lacks a
departure, segment `i-1` already passed its own arrival check. -/
theorem C10_cannot_infer_unreachable :
    (∀ segs : List JVal, notCannotInferRes (validateSegments segs) = true) ∧
    (∀ s : String, notCannotInferRes (_validate_multicity_segments s) = true) := by
  constructor
  · intro segs
    cases hv : validateSegments segs with
    | ok out => rfl
    | error e =>
      cases e with
      | badJson => rfl
      | notArray => rfl
      | notObject n => rfl
      | missingDepartureFirst => rfl
      | cannotInfer n =>
        exact absurd hv (vsf_no_cannotInfer segs 0 none (Or.inl ⟨rfl, rfl⟩) n)
      | missingArrival n => rfl
      | missingDate n => rfl
  · intro s
    cases hv : _validate_multicity_segments s with
    | ok out => rfl
    | error e =>
      cases e with
      | badJson => rfl
      | notArray => rfl
      | notObject n => rfl
      | missingDepartureFirst => rfl
      | cannotInfer n => exact absurd hv (vmc_no_cannotInfer s n)
      | missingArrival n => rfl
      | missingDate n => rfl

/-- C1 (amended): `_validate_max_price` rejects `0` and `"abc"` with the
positive-integer `ValueError` and returns `500` unchanged, but
`search_flights` never invokes it and accepts no maximum-price input, so no
build's outbound parameter set ever contains a `max_price` key. -/
theorem C1_max_price (apiKey : Option String) (r : FlightRequest) :
    _validate_max_price (.pyint 0) = .error maxPriceMsg ∧
    _validate_max_price (.pystr "abc") = .error maxPriceMsg ∧
    _validate_max_price (.pyint 500) = .ok (some 500) ∧
    hasParam (search_flights apiKey r) "max_price" = false := by
  refine ⟨rfl, rfl, rfl, ?_⟩
  simp only [search_flights]
  split
  · rfl
  · split
    · rfl
    · rename_i ty hty
      show (getP (assembled (apiKey.getD "") ty r) "max_price").isSome = false
      simp only [assembled]
      rw [getP_tail_ne _ _ (by decide) (by decide) (by decide) (by decide) (by decide)
            (by decide) (by decide) (by decide) (by decide) (by decide),
          getP_gated_ne _ _ (by decide) (by decide) (by decide) (by decide) (by decide)]
      rfl

/-- C1, the claim as frozen, is false on the code: a fully valid build with
every expressible filter supplied succeeds, and its outbound parameter set
has no maximum-price key — there is no way to supply the bound at all. -/
theorem C1_counterexample :
    exIsOk (search_flights (some "key") reqFull) = true ∧
    hasParam (search_flights (some "key") reqFull) "max_price" = false :=
  ⟨rfl, rfl⟩

lemma vv_arrival_false {segs : List JVal} {i : Nat} (hi : i < segs.length)
    (harr : truthyOpt ((segs.getD i JVal.null).getKey "arrival_id") = false) :
    exIsOk (validateSegments segs) = false := by
  cases hv : validateSegments segs with
  | error e => rfl
  | ok out =>
    exfalso
    obtain ⟨_, hspec⟩ := vsf_ok_spec segs 0 none out hv
    obtain ⟨hok, harr2, _, _, _⟩ := hspec i hi
    simp only [segOk, Bool.and_eq_true] at hok
    have h1 := hok.1.2
    rw [harr2, harr] at h1
    exact Bool.false_ne_true h1

lemma vv_date_false {segs : List JVal} {i : Nat} (hi : i < segs.length)
    (hdt : truthyOpt ((segs.getD i JVal.null).getKey "date") = false) :
    exIsOk (validateSegments segs) = false := by
  cases hv : validateSegments segs with
  | error e => rfl
  | ok out =>
    exfalso
    obtain ⟨_, hspec⟩ := vsf_ok_spec segs 0 none out hv
    obtain ⟨hok, _, hdt2, _, _⟩ := hspec i hi
    simp only [segOk, Bool.and_eq_true] at hok
    have h1 := hok.2
    rw [hdt2, hdt] at h1
    exact Bool.false_ne_true h1

lemma vv_firstdep_false {segs : List JVal} (h0 : 0 < segs.length)
    (hdep : truthyOpt ((segs.getD 0 JVal.null).getKey "departure_id") = false) :
    exIsOk (validateSegments segs) = false := by
  cases hv : validateSegments segs with
  | error e => rfl
  | ok out =>
    exfalso
    obtain ⟨_, hspec⟩ := vsf_ok_spec segs 0 none out hv
    obtain ⟨_, _, _, _, hF⟩ := hspec 0 h0
    obtain ⟨p, hp, _⟩ := (hF hdep).1 rfl
    exact Option.noConfusion hp

lemma vv_notCannotInfer (segs : List JVal) :
    notCannotInferRes (validateSegments segs) = true := by
  cases hv : validateSegments segs with
  | ok out => rfl
  | error e =>
    cases e with
    | badJson => rfl
    | notArray => rfl
    | notObject n => rfl
    | missingDepartureFirst => rfl
    | cannotInfer n =>
      exact absurd hv (vsf_no_cannotInfer segs 0 none (Or.inl ⟨rfl, rfl⟩) n)
    | missingArrival n => rfl
    | missingDate n => rfl

/-- C2 (amended): multi-city segment normalization, for every input
segment sequence: a missing/empty arrival or date makes the validator
fail; a missing departure in the first segment makes it fail; on success,
a missing departure in a later segment `i+1` is filled with segment `i`'s
arrival; when that previous arrival is itself absent the validator fails —
though with the missing-arrival error already raised for the previous
segment, never the dedicated 'cannot infer' error; and after successful
normalization every segment has non-empty departure, arrival and date. -/
theorem C2_segment_normalization :
    (∀ (segs : List JVal) (i : Nat), i < segs.length →
      truthyOpt ((segs.getD i JVal.null).getKey "arrival_id") = false →
      exIsOk (validateSegments segs) = false) ∧
    (∀ (segs : List JVal) (i : Nat), i < segs.length →
      truthyOpt ((segs.getD i JVal.null).getKey "date") = false →
      exIsOk (validateSegments segs) = false) ∧
    (∀ segs : List JVal, 0 < segs.length →
      truthyOpt ((segs.getD 0 JVal.null).getKey "departure_id") = false →
      exIsOk (validateSegments segs) = false) ∧
    (∀ (segs out : List JVal) (i : Nat), validateSegments segs = .ok out →
      i + 1 < segs.length →
      truthyOpt ((segs.getD (i + 1) JVal.null).getKey "departure_id") = false →
      (out.getD (i + 1) JVal.null).getKey "departure_id" =
        (segs.getD i JVal.null).getKey "arrival_id") ∧
    (∀ (segs : List JVal) (i : Nat), i + 1 < segs.length →
      truthyOpt ((segs.getD (i + 1) JVal.null).getKey "departure_id") = false →
      truthyOpt ((segs.getD i JVal.null).getKey "arrival_id") = false →
      exIsOk (validateSegments segs) = false ∧
      notCannotInferRes (validateSegments segs) = true) ∧
    (∀ segs out : List JVal, validateSegments segs = .ok out →
      out.length = segs.length ∧
      ∀ j, j < out.length → segOk (out.getD j JVal.null) = true) := by
  refine ⟨?_, ?_, ?_, ?_, ?_, ?_⟩
  · exact fun segs i hi h => vv_arrival_false hi h
  · exact fun segs i hi h => vv_date_false hi h
  · exact fun segs h0 h => vv_firstdep_false h0 h
  · intro segs out i hv hi hdep
    obtain ⟨_, hspec⟩ := vsf_ok_spec segs 0 none out hv
    obtain ⟨_, _, _, _, hF⟩ := hspec (i + 1) hi
    exact (hF hdep).2 i rfl
  · intro segs i hi hdep harr
    have hi' : i < segs.length := by omega
    exact ⟨vv_arrival_false hi' harr, vv_notCannotInfer segs⟩
  · intro segs out hv
    obtain ⟨hlen, hspec⟩ := vsf_ok_spec segs 0 none out hv
    refine ⟨hlen, fun j hj => ?_⟩
    have hj' : j < segs.length := hlen ▸ hj
    exact (hspec j hj').1

theorem C2_witness :
    exIsOk (validateSegments demoMissArr) = false ∧
    exIsOk (validateSegments demoMissDate) = false ∧
    exIsOk (validateSegments demoMissDep) = false ∧
    (segsInferOut.getD 1 JVal.null).getKey "departure_id" =
      (segsInfer.getD 0 JVal.null).getKey "arrival_id" ∧
    (exIsOk (validateSegments demoNoInfer) = false ∧
      notCannotInferRes (validateSegments demoNoInfer) = true) ∧
    (segsInferOut.length = segsInfer.length ∧
      ∀ j, j < segsInferOut.length → segOk (segsInferOut.getD j JVal.null) = true) :=
  ⟨C2_segment_normalization.1 demoMissArr 0 (by decide) rfl,
   C2_segment_normalization.2.1 demoMissDate 0 (by decide) rfl,
   C2_segment_normalization.2.2.1 demoMissDep (by decide) rfl,
   C2_segment_normalization.2.2.2.1 segsInfer segsInferOut 0 rfl (by decide) rfl,
   C2_segment_normalization.2.2.2.2.1 demoNoInfer 0 (by decide) rfl rfl,
   C2_segment_normalization.2.2.2.2.2 segsInfer segsInferOut rfl⟩

/-- C2 as frozen says the build fails with the 'cannot infer departure'
error when a later segment's departure and the previous arrival are both
absent; on the code that situation yields the previous segment's
missing-arrival error instead. -/
theorem C2_counterexample :
    validateSegments demoNoInfer = .error (.missingArrival 1) ∧
    McError.missingArrival 1 ≠ McError.cannotInfer 2 :=
  ⟨rfl, by decide⟩

lemma tripDispatch_multicity (r : FlightRequest) (h : r.trip_type = "multicity") :
    tripDispatch r =
      if pyTruthyS r.multi_city_json = false then .error (.validation .multiCityRequired)
      else
        match _validate_multicity_segments (r.multi_city_json.getD "") with
        | .error e => .error (.validation (.multiCity e))
        | .ok _ => .ok 3 := by
  simp only [tripDispatch]
  rw [if_neg (by rw [h]; decide), if_pos h]

/-- C3 (amended): a multicity build (with a present credential) fails with
a `ValueError` when the segment string is absent or empty, and otherwise
fails exactly when segment validation fails; an empty segment *sequence*
(the string `"[]"`) is not rejected — only emptiness of the string is. -/
theorem C3_multicity_requires_segments (apiKey : Option String) (r : FlightRequest)
    (hk : pyTruthyS apiKey = true) (ht : r.trip_type = "multicity") :
    (pyTruthyS r.multi_city_json = false →
      search_flights apiKey r = .error (.validation .multiCityRequired)) ∧
    (∀ s, r.multi_city_json = some s → pyTruthyS (some s) = true →
      (∀ e, _validate_multicity_segments s = .error e →
        search_flights apiKey r = .error (.validation (.multiCity e))) ∧
      (∀ segs, _validate_multicity_segments s = .ok segs →
        exIsOk (search_flights apiKey r) = true)) := by
  have hsf : search_flights apiKey r =
      match tripDispatch r with
      | .error e => .error e
      | .ok ty => .ok (assembled (apiKey.getD "") ty r) := by
    simp only [search_flights]
    rw [if_neg (by simp [hk])]
  constructor
  · intro hmc
    rw [hsf, tripDispatch_multicity r ht, if_pos hmc]
  · intro s hs hst
    have hmc : pyTruthyS r.multi_city_json = true := by rw [hs]; exact hst
    constructor
    · intro e he
      rw [hsf, tripDispatch_multicity r ht, if_neg (by simp [hmc]), hs]
      simp only [Option.getD_some]
      rw [he]
    · intro segs hsegs
      rw [hsf, tripDispatch_multicity r ht, if_neg (by simp [hmc]), hs]
      simp only [Option.getD_some]
      rw [hsegs]
      rfl

set_option maxRecDepth 8000 in
/-- C3 as frozen requires a non-empty segment sequence; the code only
requires a non-empty segment *string*: `"[]"` validates to the empty
sequence and the multicity build succeeds. -/
theorem C3_counterexample :
    _validate_multicity_segments "[]" = .ok [] ∧
    exIsOk (search_flights (some "key") reqMCempty) = true :=
  ⟨rfl, rfl⟩

set_option maxRecDepth 8000 in
theorem C3_witness :
    search_flights (some "key") reqMCnone = .error (.validation .multiCityRequired) ∧
    search_flights (some "key") reqMCbad = .error (.validation (.multiCity .badJson)) ∧
    exIsOk (search_flights (some "key") reqMCinfer) = true :=
  ⟨(C3_multicity_requires_segments (some "key") reqMCnone rfl rfl).1 rfl,
   ((C3_multicity_requires_segments (some "key") reqMCbad rfl rfl).2 "oops" rfl rfl).1
     .badJson rfl,
   ((C3_multicity_requires_segments (some "key") reqMCinfer rfl rfl).2 mcStr rfl rfl).2
     segsInferOut rfl⟩

lemma gatedParams_flat (ps : Params) (r : FlightRequest)
    (hm : r.trip_type ≠ "multicity") (hr : r.trip_type ≠ "roundtrip") :
    gatedParams ps r =
      _add_param (_add_param (_add_param ps "departure_id" (r.origin.map PValue.str))
          "arrival_id" (r.destination.map PValue.str))
        "outbound_date" (r.departure_date.map PValue.str) := by
  simp only [gatedParams]
  rw [if_neg (fun hc => hm hc.2), if_pos hm, if_neg (fun hc => hr hc.2)]

lemma assembled_default_trip (key : String) (r : FlightRequest)
    (h2 : r.trip_type ≠ "roundtrip") (h3 : r.trip_type ≠ "multicity") :
    assembled key 2 r = assembled key 2 { r with trip_type := "oneway" } := by
  simp only [assembled]
  rw [gatedParams_flat (baseParams key 2 r) r h3 h2,
      gatedParams_flat (baseParams key 2 { r with trip_type := "oneway" })
        { r with trip_type := "oneway" }
        ((by decide : ("oneway" : String) ≠ "multicity"))
        ((by decide : ("oneway" : String) ≠ "roundtrip"))]
  rfl

/-- C5: any trip type outside {oneway, roundtrip, multicity} is treated as
oneway: the build behaves exactly as if `trip_type` were `"oneway"`, and a
successful build's derived trip-type code is 2. -/
theorem C5_unknown_trip_defaults_oneway (apiKey : Option String) (r : FlightRequest)
    (h1 : r.trip_type ≠ "oneway") (h2 : r.trip_type ≠ "roundtrip")
    (h3 : r.trip_type ≠ "multicity") :
    search_flights apiKey r = search_flights apiKey { r with trip_type := "oneway" } ∧
    typeParamIs2 (search_flights apiKey r) := by
  have hd : tripDispatch r = .ok 2 := by
    simp only [tripDispatch]
    rw [if_neg h2, if_neg h3]
  have hd' : tripDispatch { r with trip_type := "oneway" } = .ok 2 := by
    simp [tripDispatch]
  constructor
  · simp only [search_flights]
    split
    · rfl
    · rw [hd, hd']
      exact congrArg Except.ok (assembled_default_trip _ r h2 h3)
  · simp only [search_flights]
    split
    · trivial
    · rw [hd]
      show getP (assembled (apiKey.getD "") 2 r) "type" = some (PValue.int 2)
      simp only [assembled]
      rw [getP_tail_ne _ _ (by decide) (by decide) (by decide) (by decide) (by decide)
            (by decide) (by decide) (by decide) (by decide) (by decide),
          getP_gated_ne _ _ (by decide) (by decide) (by decide) (by decide) (by decide)]
      rfl

theorem C5_witness :
    search_flights (some "key") reqBanana =
      search_flights (some "key") { reqBanana with trip_type := "oneway" } ∧
    typeParamIs2 (search_flights (some "key") reqBanana) :=
  C5_unknown_trip_defaults_oneway (some "key") reqBanana (by decide) (by decide) (by decide)

/-- C7 (amended): every successful build's parameter set serializes boolean
flags in lowercase, always includes the required-with-default integers
(even when zero), includes each of the ten unconditional optional fields
exactly when non-null and non-empty, and applies the add-if-present rule to
the trip-gated fields only under their trip-type gate: origin, destination
and departure date appear (iff non-empty) only outside multicity and are
omitted for multicity trips even when non-empty; the return date appears
(iff non-empty) only when the trip is roundtrip and is absent for every
other trip type; the multi-city blob is absent for every non-multicity
trip. -/
theorem C7_parameter_assembly (apiKey : Option String) (r : FlightRequest) :
    C7obs r (search_flights apiKey r) := by
  simp only [search_flights]
  split
  · trivial
  · split
    · trivial
    · exact paramsSpec_assembled _ _ _

set_option maxRecDepth 8000 in
/-- C7 as frozen says every optional field is included iff non-null and
non-empty; the multicity build below supplies a non-empty origin yet its
parameter set has no `departure_id` key. -/
theorem C7_counterexample :
    reqMCorigin.origin = some "TPE" ∧
    exIsOk (search_flights (some "key") reqMCorigin) = true ∧
    hasParam (search_flights (some "key") reqMCorigin) "departure_id" = false :=
  ⟨rfl, rfl, rfl⟩

/-- C9: on every successful multicity build, the `multi_city_json`
parameter is the raw request string exactly as supplied; the normalized
segment list produced by validation is discarded. -/
theorem C9_multicity_raw_passthrough (apiKey : Option String) (r : FlightRequest)
    (s : String) (ht : r.trip_type = "multicity") (hm : r.multi_city_json = some s) :
    mcjRawObs s (search_flights apiKey r) := by
  simp only [search_flights]
  split
  · trivial
  · split
    · trivial
    · rename_i ty hty
      rw [tripDispatch_multicity r ht] at hty
      by_cases hmc : pyTruthyS r.multi_city_json = false
      · rw [if_pos hmc] at hty
        exact absurd hty (by simp)
      · have hmc' : pyTruthyS r.multi_city_json = true := by
          cases hb : pyTruthyS r.multi_city_json
          · exact absurd hb hmc
          · rfl
        have hs : s ≠ "" := by
          intro hse
          rw [hm, hse] at hmc'
          exact absurd hmc' (by decide)
        show getP (assembled (apiKey.getD "") ty r) "multi_city_json" = some (PValue.str s)
        simp only [assembled]
        rw [getP_tail_ne _ _ (by decide) (by decide) (by decide) (by decide) (by decide)
              (by decide) (by decide) (by decide) (by decide) (by decide),
            getP_gated_mcj (baseParams (apiKey.getD "") ty r) r ht hmc' rfl, hm]
        simp [optStrParam, hs]

set_option maxRecDepth 8000 in
theorem C9_witness :
    exIsOk (search_flights (some "key") reqMCinfer) = true ∧
    mcjRawObs mcStr (search_flights (some "key") reqMCinfer) :=
  ⟨rfl, C9_multicity_raw_passthrough (some "key") reqMCinfer mcStr rfl rfl⟩
